import Mathlib

/-!
Verification of the Antigravity-Manager request dispatch engine
(`src-tauri/src/proxy/handlers/claude/messages.rs` and
`src-tauri/src/proxy/handlers/openai/images.rs`) against its
natural-language specification.  Each Rust fragment relevant to a claim is
shallowly embedded as an executable Lean definition; the claims are settled
as theorems about those definitions.
-/

/-! ## String utilities

Rust's `str::contains(pattern)` is a substring test and `str::replace`
replaces every non-overlapping occurrence left to right.  We model strings
as their character lists. -/

/-- Boolean list-prefix test. -/
def listPrefixOf : List Char → List Char → Bool
  | [], _ => true
  | _ :: _, [] => false
  | a :: as, b :: bs => a == b && listPrefixOf as bs

/-- Boolean list-infix test: `needle` occurs contiguously in `haystack`. -/
def listInfixOf (needle : List Char) : List Char → Bool
  | [] => needle.isEmpty
  | c :: rest => listPrefixOf needle (c :: rest) || listInfixOf needle rest

/-- Substring containment, the model of Rust `str::contains`. -/
def strContains (haystack needle : String) : Bool :=
  listInfixOf needle.data haystack.data

/-- Replace every non-overlapping occurrence of `pat` in `s` left to right,
fuelled by the length of the remaining input.  Model of Rust
`str::replace` (for a non-empty pattern). -/
def replaceAllAux (pat rep : List Char) : Nat → List Char → List Char
  | 0, s => s
  | _ + 1, [] => []
  | fuel + 1, c :: rest =>
    if listPrefixOf pat (c :: rest) then
      rep ++ replaceAllAux pat rep fuel ((c :: rest).drop pat.length)
    else
      c :: replaceAllAux pat rep fuel rest

/-- Model of Rust `str::replace`. -/
def replaceAll (s pat rep : String) : String :=
  if pat.data.isEmpty then s
  else ⟨replaceAllAux pat.data rep.data s.data.length s.data⟩

/-! ## C1: attempt budget of the dispatch loop

`messages.rs` lines 33 and 266-267:
```rust
const MAX_RETRY_ATTEMPTS: usize = 3;
let pool_size = token_manager.len();
let max_attempts = MAX_RETRY_ATTEMPTS.min(pool_size.saturating_add(1)).max(2);
```
The attempt loop (lines 275-925) runs `for attempt in 0..max_attempts`;
each iteration either returns before the single upstream call site
(line 553), or makes that one call and then returns or continues. -/

def MAX_RETRY_ATTEMPTS : Nat := 3

/-- Embedding of `messages.rs` line 267. -/
def max_attempts (pool_size : Nat) : Nat :=
  Nat.max (Nat.min MAX_RETRY_ATTEMPTS (pool_size + 1)) 2

/-- Modelled from the spec: the spec's `clamp(x, lo, hi)` notation, read as
clamping the value `x` into the interval `[lo, hi]`. -/
def clampSpec (x lo hi : Nat) : Nat := Nat.max lo (Nat.min x hi)

/-- What one iteration of the attempt loop does, as observed from outside:
it either returns before reaching the upstream call site (no-lease 503,
transform error, L3 compression failure), or it performs the single
upstream call and then returns a response, or it performs the call and
continues the loop (network error, peek failure, retryable status). -/
inductive AttemptStep where
  | exitBeforeCall
  | callThenExit
  | callThenContinue
deriving DecidableEq

/-- Number of upstream calls performed by the attempt loop given a fuel of
loop iterations and the per-iteration behaviours. -/
def upstream_attempts : Nat → List AttemptStep → Nat
  | 0, _ => 0
  | _ + 1, [] => 0
  | fuel + 1, s :: rest =>
    match s with
    | .exitBeforeCall => 0
    | .callThenExit => 1
    | .callThenContinue => 1 + upstream_attempts fuel rest

theorem upstream_attempts_le_fuel (fuel : Nat) (steps : List AttemptStep) :
    upstream_attempts fuel steps ≤ fuel := by
  induction fuel generalizing steps with
  | zero => simp [upstream_attempts]
  | succ n ih =>
    cases steps with
    | nil => simp [upstream_attempts]
    | cons s rest =>
      cases s with
      | exitBeforeCall => simp [upstream_attempts]
      | callThenExit => simp [upstream_attempts]
      | callThenContinue =>
        have h := ih rest
        simp only [upstream_attempts]
        omega

/-! ## C3: provider arbiter

`messages.rs` lines 54-55 and 90-118. -/

inductive ZaiDispatchMode where
  | off
  | exclusive
  | fallback
  | pooled
deriving DecidableEq

/-- Embedding of `messages.rs` lines 54-55 and 90-118: the `use_zai`
decision.  `zai_on` is `zai.enabled`, `rr_old` is the value returned by the
atomic `fetch_add` on `provider_rr` (the counter before the post-increment). -/
def use_zai (zai_on : Bool) (mode : ZaiDispatchMode) (google_accounts : Nat)
    (has_available : Bool) (rr_old : Nat) : Bool :=
  let zai_enabled := zai_on && !(mode == ZaiDispatchMode.off)
  if !zai_enabled then
    false
  else
    match mode with
    | .off => false
    | .exclusive => true
    | .fallback =>
      if google_accounts == 0 then true else !has_available
    | .pooled =>
      let total := Nat.max (google_accounts + 1) 1
      (rr_old % total) == 0

/-- Modelled from the spec: the `use_fallback` decision table of §4.5,
written exactly as the spec words it. -/
def use_fallback_spec (zai_on : Bool) (mode : ZaiDispatchMode)
    (primary_pool_size : Nat) (primary_has_available : Bool)
    (counter : Nat) : Bool :=
  if !zai_on then
    false
  else
    match mode with
    | .off => false
    | .exclusive => true
    | .fallback => (primary_pool_size == 0) || !primary_has_available
    | .pooled => (counter % (primary_pool_size + 1)) == 0

/-! ## C6: context limit for compression pressure

`messages.rs` lines 366-370. -/

/-- Embedding of `messages.rs` lines 366-370. -/
def handler_context_limit (mapped_model : String) : Nat :=
  if strContains mapped_model "flash" then 1000000 else 2000000

/-- Modelled from the spec: "Context limit is `1_000_000` for `*flash*`
models, else `2_000_000`" (§4.3). -/
def context_limit_spec (mapped_model : String) : Nat :=
  if strContains mapped_model "flash" then 1000000 else 2000000

/-! ## C7: forced upstream streaming

`messages.rs` lines 535-545. -/

/-- Embedding of `messages.rs` lines 536-538. -/
def actual_stream (client_wants_stream : Bool) : Bool :=
  let force_stream_internally := !client_wants_stream
  client_wants_stream || force_stream_internally

/-- Embedding of `messages.rs` line 544. -/
def upstream_method (client_wants_stream : Bool) : String :=
  if actual_stream client_wants_stream then "streamGenerateContent" else "generateContent"

/-- Embedding of `messages.rs` line 545. -/
def upstream_query (client_wants_stream : Bool) : Option String :=
  if actual_stream client_wants_stream then some "alt=sse" else none

/-! ## Data model: normalized Claude request

From `proxy/mappers/claude/models` as used by `messages.rs`: a message's
content is either a plain string or a list of content blocks; a request
carries the model name, the stream flag, the messages, and optional tools
and thinking config. -/

inductive ContentBlock where
  | text (text : String)
  | image (source : String)
  | toolUse (id : String) (name : String)
  | toolResult (tool_use_id : String) (content : String)
  | thinking (thinking : String) (signature : Option String)
  | redactedThinking (data : String)
deriving DecidableEq

inductive MessageContent where
  | str (s : String)
  | arr (blocks : List ContentBlock)
deriving DecidableEq

structure Message where
  role : String
  content : MessageContent
deriving DecidableEq

structure ThinkingConfig where
  type : String
  budget_tokens : Option Nat
deriving DecidableEq

structure ToolDef where
  name : String
deriving DecidableEq

structure ClaudeRequest where
  model : String
  stream : Bool
  messages : List Message
  tools : Option (List ToolDef)
  thinking : Option ThinkingConfig
deriving DecidableEq

/-! ## C4: no-lease 503 response

`messages.rs` lines 298-321: when `get_token` fails with error string `e`,
the handler rewrites the message if `e` contains `invalid_grant` and
returns 503 with an `overloaded_error` body and an `X-Mapped-Model`
header. -/

/-- The curated reauthorization guidance of `messages.rs` line 302. -/
def INVALID_GRANT_GUIDANCE : String :=
  "OAuth refresh failed (invalid_grant): refresh_token likely revoked/expired; reauthorize account(s) to restore service."

/-- Embedding of `messages.rs` lines 301-305. -/
def no_lease_safe_message (e : String) : String :=
  if strContains e "invalid_grant" then INVALID_GRANT_GUIDANCE else e

structure ClaudeErrorResponse where
  status : Nat
  error_type : String
  message : String
  headers : List (String × String)
deriving DecidableEq

/-- Embedding of `messages.rs` lines 306-320: the response returned when no
lease could be obtained. -/
def no_lease_response (mapped_model e : String) : ClaudeErrorResponse :=
  { status := 503
  , error_type := "overloaded_error"
  , message := "No available accounts: " ++ no_lease_safe_message e
  , headers := [("X-Mapped-Model", mapped_model)] }

/-! ## C8: interleaved-thinking beta header

`messages.rs` lines 547-551: the extra header map is empty unless the
(possibly rewritten) request has both a thinking config and a tools
list. -/

/-- Embedding of `messages.rs` lines 547-551. -/
def extra_beta_headers (r : ClaudeRequest) : List (String × String) :=
  if r.thinking.isSome && r.tools.isSome then
    [("anthropic-beta", "interleaved-thinking-2025-05-14")]
  else []

/-! ## C5: three-layer progressive compression

`messages.rs` lines 361-487.  The collaborator calls
(`trim_tool_messages`, `compress_thinking_preserve_signature`,
`try_compress_with_summary`, the calibrated re-estimations) live outside
`messages.rs`; their observable results are supplied as an oracle.  The
source computes usage ratios in `f32`; ratios and thresholds are modelled
as rationals, preserving the comparison structure. -/

structure CompressionOracle where
  /-- Result of `trim_tool_messages` (line 384): whether anything was trimmed. -/
  trim_ok : Bool
  /-- Calibrated usage ratio recomputed after Layer 1 (lines 391-393). -/
  rAfterL1 : ℚ
  /-- Result of `compress_thinking_preserve_signature` (lines 417-420). -/
  compress_ok : Bool
  /-- Calibrated usage ratio recomputed after Layer 2 (lines 424-426). -/
  rAfterL2 : ℚ
  /-- Whether `try_compress_with_summary` (line 446) returned `Ok`. -/
  fork_ok : Bool
  /-- Calibrated usage ratio recomputed after Layer 3 (lines 458-460). -/
  rAfterL3 : ℚ
deriving DecidableEq

structure CompressionOutcome where
  l1_trimmed : Bool
  l2_compressed : Bool
  l3_forked : Bool
  l3_failed : Bool
  is_purified : Bool
  compression_applied : Bool
  final_r : ℚ
deriving DecidableEq

/-- Embedding of `messages.rs` lines 382-408 (Layer 1, tool trimming).
Returns `(l1_trimmed, compression_applied, usage_ratio)`. -/
def run_l1 (threshold_l1 r0 : ℚ) (o : CompressionOracle) : Bool × Bool × ℚ :=
  if r0 > threshold_l1 then
    if o.trim_ok then
      if o.rAfterL1 < mkRat 7 10 then (true, true, o.rAfterL1)
      else (true, false, o.rAfterL1)
    else (false, false, r0)
  else (false, false, r0)

/-- Embedding of `messages.rs` lines 410-435 (Layer 2, thinking
compression).  Returns `(l2_compressed, compression_applied, usage_ratio)`. -/
def run_l2 (threshold_l2 : ℚ) (applied : Bool) (r1 : ℚ)
    (o : CompressionOracle) : Bool × Bool × ℚ :=
  if r1 > threshold_l2 ∧ applied = false then
    if o.compress_ok then (true, true, o.rAfterL2)
    else (false, applied, r1)
  else (false, applied, r1)

/-- Embedding of `messages.rs` lines 437-486 (Layer 3, fork + summary).
Returns `(l3_forked, l3_failed, usage_ratio)`; `l3_failed = true` is the
early `invalid_request_error` return of lines 473-483. -/
def run_l3 (threshold_l3 : ℚ) (applied : Bool) (r2 : ℚ)
    (o : CompressionOracle) : Bool × Bool × ℚ :=
  if r2 > threshold_l3 ∧ applied = false then
    if o.fork_ok then (true, false, o.rAfterL3)
    else (false, true, r2)
  else (false, false, r2)

/-- Embedding of `messages.rs` lines 361-487: the guard and the three
layers in order. -/
def compression_phase (retried_without_thinking scaling_enabled : Bool)
    (threshold_l1 threshold_l2 threshold_l3 : ℚ) (r0 : ℚ)
    (o : CompressionOracle) : CompressionOutcome :=
  if retried_without_thinking = false ∧ scaling_enabled = true then
    match run_l1 threshold_l1 r0 o with
    | (l1did, applied1, r1) =>
      match run_l2 threshold_l2 applied1 r1 o with
      | (l2did, applied2, r2) =>
        match run_l3 threshold_l3 applied2 r2 o with
        | (l3did, l3fail, r3) =>
          { l1_trimmed := l1did
          , l2_compressed := l2did
          , l3_forked := l3did
          , l3_failed := l3fail
          , is_purified := l2did && !l3did
          , compression_applied := applied2
          , final_r := r3 }
  else
    { l1_trimmed := false, l2_compressed := false, l3_forked := false
    , l3_failed := false, is_purified := false, compression_applied := false
    , final_r := r0 }

/-- Embedding of `messages.rs` lines 365-375 composed with the layers: the
initial usage ratio of the phase is the calibrated estimate divided by the
model-dependent context limit. -/
def compression_phase_for (retried_without_thinking scaling_enabled : Bool)
    (threshold_l1 threshold_l2 threshold_l3 : ℚ) (mapped_model : String)
    (calibrated_usage : Nat) (o : CompressionOracle) : CompressionOutcome :=
  compression_phase retried_without_thinking scaling_enabled
    threshold_l1 threshold_l2 threshold_l3
    ((calibrated_usage : ℚ) / (handler_context_limit mapped_model : ℚ)) o

/-! ## C2: one-shot strip-thinking recovery

`messages.rs` lines 803-892. -/

/-- A lone apostrophe character, kept out of string literals. -/
def aposChar : Char := Char.ofNat 39

/-- The thinking/signature markers of `messages.rs` lines 806-819, in
source order.  Four of them quote a word between apostrophes. -/
def THINKING_MARKERS : List String :=
  [ "Invalid `signature`"
  , "thinking.signature: Field required"
  , "thinking.thinking: Field required"
  , "thinking.signature"
  , "thinking.thinking"
  , "Corrupted thought signature"
  , "failed to deserialise"
  , "Invalid signature"
  , "thinking block"
  , "Found `text`"
  , "Found " ++ String.singleton aposChar ++ "text" ++ String.singleton aposChar
  , "must be `thinking`"
  , "must be " ++ String.singleton aposChar ++ "thinking" ++ String.singleton aposChar ]

/-- Embedding of the marker disjunction of `messages.rs` lines 806-819. -/
def is_thinking_signature_error (error_text : String) : Bool :=
  THINKING_MARKERS.any (fun m => strContains error_text m)

/-- Embedding of the recovery guard, `messages.rs` lines 804-820. -/
def thinking_recovery_triggers (status_code : Nat)
    (retried_without_thinking : Bool) (error_text : String) : Bool :=
  status_code == 400 && !retried_without_thinking &&
    is_thinking_signature_error error_text

/-- The recovery prompt of `messages.rs` line 831. -/
def REPAIR_PROMPT : String :=
  "\n\n[System Recovery] Your previous output contained an invalid signature. Please regenerate the response without the corrupted signature block."

/-- Embedding of `messages.rs` lines 833-842: append the repair prompt to a
message content. -/
def append_prompt_to_content : MessageContent → MessageContent
  | .str s => .str (s ++ REPAIR_PROMPT)
  | .arr blocks => .arr (blocks ++ [ContentBlock.text REPAIR_PROMPT])

/-- Embedding of `messages.rs` lines 829-845: the repair prompt is appended
to the final message, and only when that message's role is `user`. -/
def append_repair_prompt : List Message → List Message
  | [] => []
  | [m] =>
    [if m.role == "user" then
      { m with content := append_prompt_to_content m.content }
     else m]
  | m :: m2 :: rest => m :: append_repair_prompt (m2 :: rest)

/-- Embedding of `messages.rs` lines 850-864: per-block fallback rewrite.
Non-empty Thinking becomes Text, empty Thinking and RedactedThinking are
dropped, everything else is kept. -/
def strip_thinking_block : ContentBlock → Option ContentBlock
  | .thinking t _ => if t.data.isEmpty then none else some (.text t)
  | .redactedThinking _ => none
  | b => some b

/-- Embedding of `messages.rs` lines 847-868 for one message's block list. -/
def strip_thinking_blocks (blocks : List ContentBlock) : List ContentBlock :=
  blocks.filterMap strip_thinking_block

/-- Embedding of `messages.rs` lines 847-868: only `Array` contents are
rewritten. -/
def strip_thinking_message (m : Message) : Message :=
  match m.content with
  | .str _ => m
  | .arr blocks => { m with content := .arr (strip_thinking_blocks blocks) }

def message_has_thinking (m : Message) : Bool :=
  match m.content with
  | .str _ => false
  | .arr bs => bs.any fun b =>
      match b with
      | ContentBlock.thinking _ _ => true
      | _ => false

def message_has_tool_use (m : Message) : Bool :=
  match m.content with
  | .str _ => false
  | .arr bs => bs.any fun b =>
      match b with
      | ContentBlock.toolUse _ _ => true
      | _ => false

def append_text_block (m : Message) (t : String) : Message :=
  match m.content with
  | .str s => { m with content := .str (s ++ t) }
  | .arr bs => { m with content := .arr (bs ++ [ContentBlock.text t]) }

/-- Modelled from the spec: `close_tool_loop_for_thinking` lives in
`proxy/mappers/claude/thinking_utils`, which is not under `src/`.  Spec
§4.4: if the last assistant turn contains a Thinking block that is not
followed by a matching tool result chain, append a synthetic closing text
block so the upstream accepts the turn. -/
def close_tool_loop_for_thinking (msgs : List Message) : List Message :=
  match msgs.getLast? with
  | none => msgs
  | some m =>
    if m.role == "assistant" && message_has_thinking m && message_has_tool_use m then
      msgs.dropLast ++ [append_text_block m "[Tool loop closed]"]
    else msgs

/-- Embedding of `messages.rs` lines 872-881: model canonicalization on the
recovery path.  Only models containing `claude-` are touched; every
occurrence of `-thinking` is removed; dated Sonnet variants collapse to
`claude-sonnet-4-5` and `claude-opus-4-*` variants collapse to
`claude-opus-4-5`. -/
def canonicalize_model_after_thinking_failure (model : String) : String :=
  if strContains model "claude-" then
    let m := replaceAll model "-thinking" ""
    if strContains m "claude-sonnet-4-5-" then "claude-sonnet-4-5"
    else if strContains m "claude-opus-4-5-" || strContains m "claude-opus-4-" then
      "claude-opus-4-5"
    else m
  else model

inductive RetryStrategy where
  | fixedDelay (ms : Nat)
  | exponentialBackoff (base_ms max_ms : Nat)
  | noRetry
deriving DecidableEq

/-- Embedding of `messages.rs` lines 829-881: the full one-shot
strip-thinking request rewrite, in source order (prompt append, then block
stripping, then tool-loop closing, then model canonicalization). -/
def thinking_failure_rewrite (r : ClaudeRequest) : ClaudeRequest :=
  { r with
    messages := close_tool_loop_for_thinking
      ((append_repair_prompt r.messages).map strip_thinking_message)
  , model := canonicalize_model_after_thinking_failure r.model }

structure RecoveryAction where
  request : ClaudeRequest
  retried_without_thinking : Bool
  strategy : RetryStrategy
deriving DecidableEq

/-- Embedding of `messages.rs` lines 820-891: on a triggering 400, the flag
is set, the request is rewritten, and a `FixedDelay(200 ms)` strategy is
applied before the loop continues. -/
def thinking_recovery_step (r : ClaudeRequest) : RecoveryAction :=
  { request := thinking_failure_rewrite r
  , retried_without_thinking := true
  , strategy := RetryStrategy.fixedDelay 200 }

/-- Concrete request for the C2 counterexample: its final message is an
assistant message, and an earlier user message exists. -/
def reqC2 : ClaudeRequest :=
  { model := "claude-sonnet-4-5"
  , stream := true
  , messages :=
      [ { role := "user", content := MessageContent.str "hi" }
      , { role := "assistant", content := MessageContent.str "ok" } ]
  , tools := none
  , thinking := none }

/-! ## C9: response headers per exit path

Each response-construction site of `messages.rs` and the headers it
explicitly sets. -/

inductive HandlerExit where
  | parseError
  | noLease
  | transformError
  | l3Failure
  | streamSuccess
  | collectSuccess
  | collectError
  | nonStreamReadError
  | nonStreamParseError
  | nonStreamConvertError
  | nonStreamTransformError
  | nonStreamSuccess
  | promptTooLong
  | nonRetryableError
  | exhaustedTried
  | exhaustedNoTried
deriving DecidableEq

/-- Embedding of every response site of `messages.rs`: the custom headers
it sets.  `mapped_hv_ok` models `HeaderValue::from_str` succeeding on the
mapped model string in the exhaustion paths (lines 931, 956).  Line
references: parseError 62-71, noLease 306-320, transformError 503-518,
l3Failure 473-483, streamSuccess 657-668, collectSuccess 674-682,
collectError 685, nonStream errors 699-732, nonStreamSuccess 750,
promptTooLong 906-919, nonRetryableError 923, exhaustion 927-977. -/
def exit_headers (e : HandlerExit) (email mapped : String)
    (is_purified : Bool) (mapped_hv_ok : Bool) : List (String × String) :=
  match e with
  | .parseError => []
  | .noLease => [("X-Mapped-Model", mapped)]
  | .transformError => [("X-Mapped-Model", mapped), ("X-Account-Email", email)]
  | .l3Failure => []
  | .streamSuccess =>
    [ ("Content-Type", "text/event-stream")
    , ("Cache-Control", "no-cache")
    , ("Connection", "keep-alive")
    , ("X-Accel-Buffering", "no")
    , ("X-Account-Email", email)
    , ("X-Mapped-Model", mapped)
    , ("X-Context-Purified", if is_purified then "true" else "false") ]
  | .collectSuccess =>
    [ ("Content-Type", "application/json")
    , ("X-Account-Email", email)
    , ("X-Mapped-Model", mapped)
    , ("X-Context-Purified", if is_purified then "true" else "false") ]
  | .collectError => []
  | .nonStreamReadError => []
  | .nonStreamParseError => []
  | .nonStreamConvertError => []
  | .nonStreamTransformError => []
  | .nonStreamSuccess => [("X-Account-Email", email), ("X-Mapped-Model", mapped)]
  | .promptTooLong => [("X-Account-Email", email)]
  | .nonRetryableError => [("X-Account-Email", email)]
  | .exhaustedTried =>
    ("X-Account-Email", email) ::
      (if mapped_hv_ok then [("X-Mapped-Model", mapped)] else [])
  | .exhaustedNoTried =>
    if mapped_hv_ok then [("X-Mapped-Model", mapped)] else []

/-- Whether a header with the given name is present. -/
def has_header (hs : List (String × String)) (name : String) : Bool :=
  hs.any fun h => h.1 == name

/-- Whether a header with the given name is present with value `true` or
`false`. -/
def has_bool_header (hs : List (String × String)) (name : String) : Bool :=
  hs.any fun h => h.1 == name && (h.2 == "true" || h.2 == "false")

/-! ## C10: image generation fan-out

`images.rs` lines 82-253. -/

structure TokenLease where
  account_id : String
  email : String
  access_token : String
  project_id : String
deriving DecidableEq

structure UpstreamImageCall where
  method : String
  access_token : String
  model : String
  request_type : String
deriving DecidableEq

/-- Embedding of `images.rs` lines 105-162: the handler spawns `n` tasks,
each calling `generateContent` with the access token cloned from the
single lease obtained at lines 86-97 before the fan-out. -/
def image_gen_calls (lease : TokenLease) (n : Nat) : List UpstreamImageCall :=
  List.replicate n
    { method := "generateContent"
    , access_token := lease.access_token
    , model := "gemini-3-pro-image"
    , request_type := "image_gen" }

structure InlineImageData where
  data : String
  mimeType : Option String
deriving DecidableEq

inductive GeminiImagePart where
  | inlineData (d : InlineImageData)
  | other
deriving DecidableEq

/-- The first candidate's content parts of one sub-request's parsed
response (`candidates[0].content.parts`; empty when the path is missing). -/
structure ImageSubResponse where
  parts : List GeminiImagePart
deriving DecidableEq

inductive SubResult where
  | ok (resp : ImageSubResponse)
  | err (msg : String)
deriving DecidableEq

inductive ImageEntry where
  | url (u : String)
  | b64 (d : String)
deriving DecidableEq

/-- Embedding of `images.rs` lines 171-201: the image entries one
successful sub-response contributes, in part order. -/
def extract_images (response_format : String) (r : ImageSubResponse) :
    List ImageEntry :=
  r.parts.filterMap fun p =>
    match p with
    | .inlineData d =>
      if d.data.data.isEmpty then none
      else if response_format == "url" then
        some (.url ("data:" ++ d.mimeType.getD "image/png" ++ ";base64," ++ d.data))
      else some (.b64 d.data)
    | .other => none

/-- The images one task contributes (errors contribute none). -/
def task_images (response_format : String) : SubResult → List ImageEntry
  | .ok resp => extract_images response_format resp
  | .err _ => []

/-- The error string one task contributes, if any. -/
def task_error : SubResult → Option String
  | .ok _ => none
  | .err e => some e

/-- Embedding of `images.rs` lines 164-214: the collection loop over task
results. -/
def collect_results (response_format : String) (results : List SubResult) :
    List ImageEntry × List String :=
  results.foldl
    (fun acc r =>
      match r with
      | SubResult.ok resp => (acc.1 ++ extract_images response_format resp, acc.2)
      | SubResult.err e => (acc.1, acc.2 ++ [e]))
    ([], [])

inductive ImagesOutcome where
  | failure (status : Nat) (msg : String)
  | success (status : Nat) (data : List ImageEntry) (email : String)
deriving DecidableEq

/-- Embedding of `images.rs` lines 216-253: 502 with the joined errors (or
a fixed message) when no image was collected, else 200 with exactly the
collected images. -/
def images_generations_outcome (lease : TokenLease) (response_format : String)
    (results : List SubResult) : ImagesOutcome :=
  let collected := collect_results response_format results
  if collected.1.isEmpty then
    .failure 502
      (if collected.2.isEmpty then "No images generated"
       else String.intercalate "; " collected.2)
  else
    .success 200 collected.1 lease.email

/-! ## Claim theorems (first group) -/

/-- Claim C1: for every inbound Claude messages request the dispatch loop
executes at most `max_attempts` upstream attempts, where
`max_attempts = clamp(MAX_RETRY_ATTEMPTS = 3, 2, pool_size + 1)`; in
particular the number of upstream attempts never exceeds
`clamp(3, 2, pool_size + 1)`. -/
theorem C1_attempt_budget (pool_size : Nat) (steps : List AttemptStep) :
    max_attempts pool_size = clampSpec MAX_RETRY_ATTEMPTS 2 (pool_size + 1) ∧
    upstream_attempts (max_attempts pool_size) steps ≤ clampSpec 3 2 (pool_size + 1) := by
  constructor
  · simp [max_attempts, clampSpec, Nat.max_comm]
  · have h := upstream_attempts_le_fuel (max_attempts pool_size) steps
    have : max_attempts pool_size = clampSpec 3 2 (pool_size + 1) := by
      simp [max_attempts, clampSpec, MAX_RETRY_ATTEMPTS, Nat.max_comm]
    omega

/-- Claim C3: the provider arbiter's `use_fallback` decision is exactly the
spec's table: `false` when the mode is `Off` or the fallback provider is
disabled; `true` in `Exclusive`; in `Fallback`, `true` iff the primary pool
is empty or no primary account is available; in `Pooled`, `true` iff the
post-incremented round-robin counter modulo `primary_pool_size + 1` is 0. -/
theorem C3_arbiter_decision (zai_on : Bool) (mode : ZaiDispatchMode)
    (google_accounts : Nat) (has_available : Bool) (rr_old : Nat) :
    use_zai zai_on mode google_accounts has_available rr_old =
      use_fallback_spec zai_on mode google_accounts has_available rr_old := by
  cases zai_on with
  | false => cases mode <;> rfl
  | true =>
    cases mode with
    | off => rfl
    | exclusive => rfl
    | fallback =>
      by_cases h : google_accounts == 0 <;>
        simp [use_zai, use_fallback_spec, h]
    | pooled =>
      have htotal : Nat.max (google_accounts + 1) 1 = google_accounts + 1 :=
        Nat.max_eq_left (Nat.succ_le_succ (Nat.zero_le _))
      simp [use_zai, use_fallback_spec, htotal]

/-- Claim C6: the context limit used for compression-pressure computation
is 1,000,000 tokens when the mapped model name contains "flash" and
2,000,000 tokens otherwise. -/
theorem C6_context_limit (mapped_model : String) :
    handler_context_limit mapped_model = context_limit_spec mapped_model ∧
    handler_context_limit "gemini-2.5-flash" = 1000000 ∧
    handler_context_limit "gemini-2.5-pro" = 2000000 := by
  refine ⟨rfl, ?_, ?_⟩ <;> decide

/-- Claim C7: every upstream attempt is made in streaming mode regardless of
the client's `stream` flag: `actual_stream` is always `true`, the method is
always `streamGenerateContent` with query `alt=sse`, and the
`generateContent` branch is never taken on this path. -/
theorem C7_always_streams (client_wants_stream : Bool) :
    actual_stream client_wants_stream = true ∧
    upstream_method client_wants_stream = "streamGenerateContent" ∧
    upstream_query client_wants_stream = some "alt=sse" ∧
    upstream_method client_wants_stream ≠ "generateContent" := by
  cases client_wants_stream <;> decide

/-- Claim C4: whenever `get_token` fails, the handler returns HTTP 503 with
an Anthropic-schema `overloaded_error`; the user-visible message is
rewritten to the curated reauthorization guidance iff the token manager's
error string contains `invalid_grant`, and otherwise the underlying error
string is surfaced. -/
theorem C4_no_lease_503 (mapped_model e : String) :
    (no_lease_response mapped_model e).status = 503 ∧
    (no_lease_response mapped_model e).error_type = "overloaded_error" ∧
    (no_lease_safe_message e = INVALID_GRANT_GUIDANCE ↔
      strContains e "invalid_grant" = true) ∧
    (strContains e "invalid_grant" = false →
      (no_lease_response mapped_model e).message = "No available accounts: " ++ e) := by
  refine ⟨rfl, rfl, ⟨?_, ?_⟩, ?_⟩
  · intro h
    cases hc : strContains e "invalid_grant" with
    | true => rfl
    | false =>
      have hsafe : no_lease_safe_message e = e := by
        simp [no_lease_safe_message, hc]
      rw [hsafe] at h
      have hg : strContains e "invalid_grant" = true := by
        rw [h]; decide
      rw [hc] at hg
      exact absurd hg (by decide)
  · intro h
    simp [no_lease_safe_message, h]
  · intro h
    simp [no_lease_response, no_lease_safe_message, h]

theorem C4_no_lease_503_witness :
    (no_lease_response "gemini-2.5-pro" "network down").message =
      "No available accounts: network down" := by
  have h := C4_no_lease_503 "gemini-2.5-pro" "network down"
  exact h.2.2.2 (by decide)

/-- Claim C8: the `anthropic-beta: interleaved-thinking-2025-05-14` header
is sent on an upstream attempt iff the (possibly rewritten) request has
both a thinking config present and a tools list present. -/
theorem C8_beta_header (r : ClaudeRequest) :
    (("anthropic-beta", "interleaved-thinking-2025-05-14") ∈ extra_beta_headers r) ↔
      (r.thinking.isSome = true ∧ r.tools.isSome = true) := by
  cases hth : r.thinking <;> cases hto : r.tools <;>
    simp [extra_beta_headers, hth, hto]

theorem C8_beta_header_witness :
    ("anthropic-beta", "interleaved-thinking-2025-05-14") ∈
      extra_beta_headers
        { model := "claude-sonnet-4-5", stream := true, messages := []
        , tools := some [{ name := "bash" }]
        , thinking := some { type := "enabled", budget_tokens := some 1024 } } := by
  exact (C8_beta_header _).mpr (by exact ⟨rfl, rfl⟩)

/-! ## C5 helper lemmas -/

theorem run_l1_eq (t1 r0 : ℚ) (o : CompressionOracle) :
    run_l1 t1 r0 o =
      ( decide (r0 > t1) && o.trim_ok
      , decide (r0 > t1) && o.trim_ok && decide (o.rAfterL1 < mkRat 7 10)
      , if decide (r0 > t1) && o.trim_ok then o.rAfterL1 else r0 ) := by
  unfold run_l1
  by_cases h1 : r0 > t1 <;> cases htr : o.trim_ok <;>
    by_cases h7 : o.rAfterL1 < mkRat 7 10 <;> simp [h1, htr, h7]

theorem run_l2_eq (t2 : ℚ) (applied : Bool) (r1 : ℚ) (o : CompressionOracle) :
    run_l2 t2 applied r1 o =
      ( decide (r1 > t2) && !applied && o.compress_ok
      , applied || (decide (r1 > t2) && !applied && o.compress_ok)
      , if decide (r1 > t2) && !applied && o.compress_ok then o.rAfterL2 else r1 ) := by
  unfold run_l2
  by_cases h2 : r1 > t2 <;> cases happ : applied <;>
    cases hco : o.compress_ok <;> simp [h2, happ, hco]

theorem run_l3_eq (t3 : ℚ) (applied : Bool) (r2 : ℚ) (o : CompressionOracle) :
    run_l3 t3 applied r2 o =
      ( decide (r2 > t3) && !applied && o.fork_ok
      , decide (r2 > t3) && !applied && !o.fork_ok
      , if decide (r2 > t3) && !applied && o.fork_ok then o.rAfterL3 else r2 ) := by
  unfold run_l3
  by_cases h3 : r2 > t3 <;> cases happ : applied <;>
    cases hfo : o.fork_ok <;> simp [h3, happ, hfo]

theorem mkRat_seven_tenths : mkRat 7 10 = (7 : ℚ)/10 := by
  norm_num [mkRat]

theorem comp_phase_skip (t1 t2 t3 r0 : ℚ) (o : CompressionOracle)
    (retried scaling : Bool) (h : retried = true ∨ scaling = false) :
    compression_phase retried scaling t1 t2 t3 r0 o =
      { l1_trimmed := false, l2_compressed := false, l3_forked := false
      , l3_failed := false, is_purified := false, compression_applied := false
      , final_r := r0 } := by
  rcases h with h | h <;> subst h <;> simp [compression_phase]

theorem comp_phase_l1 (t1 t2 t3 r0 : ℚ) (o : CompressionOracle) :
    (compression_phase false true t1 t2 t3 r0 o).l1_trimmed =
      (decide (r0 > t1) && o.trim_ok) := by
  simp [compression_phase, run_l1_eq, run_l2_eq, run_l3_eq]

theorem comp_phase_one_layer (t1 t2 t3 r0 : ℚ) (o : CompressionOracle)
    (h1 : (compression_phase false true t1 t2 t3 r0 o).l1_trimmed = true)
    (h7 : o.rAfterL1 < 7/10) :
    (compression_phase false true t1 t2 t3 r0 o).compression_applied = true ∧
    (compression_phase false true t1 t2 t3 r0 o).l2_compressed = false ∧
    (compression_phase false true t1 t2 t3 r0 o).l3_forked = false ∧
    (compression_phase false true t1 t2 t3 r0 o).l3_failed = false := by
  rw [comp_phase_l1] at h1
  simp [compression_phase, run_l1_eq, run_l2_eq, run_l3_eq, mkRat_seven_tenths, h1, h7]

theorem comp_phase_l2_needs_flag (t1 t2 t3 r0 : ℚ) (o : CompressionOracle)
    (h : (compression_phase false true t1 t2 t3 r0 o).l2_compressed = true) :
    (compression_phase false true t1 t2 t3 r0 o).l1_trimmed = false ∨
      (7 : ℚ)/10 ≤ o.rAfterL1 := by
  by_cases hab : (compression_phase false true t1 t2 t3 r0 o).l1_trimmed = true
  · right
    by_cases h7 : o.rAfterL1 < 7/10
    · have hol := comp_phase_one_layer t1 t2 t3 r0 o hab h7
      rw [hol.2.1] at h
      simp at h
    · exact le_of_not_lt h7
  · left
    exact Bool.eq_false_iff.mpr hab

theorem comp_phase_l2_blocks_l3 (t1 t2 t3 r0 : ℚ) (o : CompressionOracle)
    (h : (compression_phase false true t1 t2 t3 r0 o).l2_compressed = true) :
    (compression_phase false true t1 t2 t3 r0 o).l3_forked = false ∧
    (compression_phase false true t1 t2 t3 r0 o).l3_failed = false := by
  simp only [compression_phase, run_l1_eq, run_l2_eq, run_l3_eq,
    mkRat_seven_tenths] at h ⊢
  simp_all
  refine ⟨?_, ?_⟩ <;>
    intro _ h1 htr h7 <;>
    exfalso <;>
    rcases h.1.2 with (hle | htf) | hge
  · exact absurd h1 (not_lt.mpr hle)
  · rw [htr] at htf; exact Bool.noConfusion htf
  · exact absurd h7 (not_lt.mpr hge)
  · exact absurd h1 (not_lt.mpr hle)
  · rw [htr] at htf; exact Bool.noConfusion htf
  · exact absurd h7 (not_lt.mpr hge)

theorem comp_phase_l2_may_run (t1 t2 t3 r0 : ℚ) (o : CompressionOracle)
    (hl1 : (compression_phase false true t1 t2 t3 r0 o).l1_trimmed = true)
    (h7 : (7 : ℚ)/10 ≤ o.rAfterL1) (h2 : o.rAfterL1 > t2)
    (hco : o.compress_ok = true) :
    (compression_phase false true t1 t2 t3 r0 o).l2_compressed = true := by
  rw [comp_phase_l1] at hl1
  have h7f : decide (o.rAfterL1 < mkRat 7 10) = false := by
    simp [mkRat_seven_tenths, not_lt.mpr h7]
  simp [compression_phase, run_l1_eq, run_l2_eq, run_l3_eq, hl1, h7f, hco, h2]

/-- Claim C5: progressive compression runs only when `scaling_enabled` and
not `retried_without_thinking`; the layers run in order L1, L2, L3, each
subsequent layer guarded by the applied flag (so at most one layer applies
per request, except through the 0.7 rule); L1 triggers when the usage
ratio exceeds `threshold_l1`; and when the post-L1 compressed ratio is
still at least 0.7 the applied flag is cleared so L2 may also run. -/
theorem C5_progressive_compression (t1 t2 t3 r0 : ℚ) (o : CompressionOracle)
    (retried scaling : Bool) :
    (retried = true ∨ scaling = false →
      compression_phase retried scaling t1 t2 t3 r0 o =
        { l1_trimmed := false, l2_compressed := false, l3_forked := false
        , l3_failed := false, is_purified := false, compression_applied := false
        , final_r := r0 }) ∧
    ((compression_phase false true t1 t2 t3 r0 o).l1_trimmed =
      (decide (r0 > t1) && o.trim_ok)) ∧
    ((compression_phase false true t1 t2 t3 r0 o).l1_trimmed = true →
      o.rAfterL1 < 7/10 →
      (compression_phase false true t1 t2 t3 r0 o).compression_applied = true ∧
      (compression_phase false true t1 t2 t3 r0 o).l2_compressed = false ∧
      (compression_phase false true t1 t2 t3 r0 o).l3_forked = false ∧
      (compression_phase false true t1 t2 t3 r0 o).l3_failed = false) ∧
    ((compression_phase false true t1 t2 t3 r0 o).l2_compressed = true →
      (compression_phase false true t1 t2 t3 r0 o).l1_trimmed = false ∨
        (7 : ℚ)/10 ≤ o.rAfterL1) ∧
    ((compression_phase false true t1 t2 t3 r0 o).l2_compressed = true →
      (compression_phase false true t1 t2 t3 r0 o).l3_forked = false ∧
      (compression_phase false true t1 t2 t3 r0 o).l3_failed = false) ∧
    ((compression_phase false true t1 t2 t3 r0 o).l1_trimmed = true →
      (7 : ℚ)/10 ≤ o.rAfterL1 → o.rAfterL1 > t2 → o.compress_ok = true →
      (compression_phase false true t1 t2 t3 r0 o).l2_compressed = true) := by
  refine ⟨?_, comp_phase_l1 t1 t2 t3 r0 o, ?_, ?_, ?_, ?_⟩
  · exact fun h => comp_phase_skip t1 t2 t3 r0 o retried scaling h
  · exact fun h1 h7 => comp_phase_one_layer t1 t2 t3 r0 o h1 h7
  · exact fun h => comp_phase_l2_needs_flag t1 t2 t3 r0 o h
  · exact fun h => comp_phase_l2_blocks_l3 t1 t2 t3 r0 o h
  · exact fun hl1 h7 h2 hco => comp_phase_l2_may_run t1 t2 t3 r0 o hl1 h7 h2 hco

theorem C5_progressive_compression_witness :
    (compression_phase false true 1 2 100 2
      { trim_ok := true, rAfterL1 := 3, compress_ok := true
      , rAfterL2 := 1, fork_ok := true, rAfterL3 := 1 }).l2_compressed = true := by
  have h := C5_progressive_compression 1 2 100 2
    { trim_ok := true, rAfterL1 := 3, compress_ok := true
    , rAfterL2 := 1, fork_ok := true, rAfterL3 := 1 } false true
  exact h.2.2.2.2.2 (by decide) (by norm_num) (by decide) (by decide)

/-! ## C2 helper lemmas -/

theorem append_repair_prompt_user : ∀ (msgs : List Message) (m : Message),
    msgs.getLast? = some m → m.role = "user" →
    append_repair_prompt msgs =
      msgs.dropLast ++ [{ m with content := append_prompt_to_content m.content }]
  | [], m, hlast, _ => by simp at hlast
  | [a], m, hlast, hrole => by
    have ha : a = m := by simpa using hlast
    subst ha
    simp [append_repair_prompt, hrole]
  | a :: b :: rest, m, hlast, hrole => by
    have hlast2 : (b :: rest).getLast? = some m := by
      simpa [List.getLast?_cons_cons] using hlast
    have ih := append_repair_prompt_user (b :: rest) m hlast2 hrole
    simp [append_repair_prompt, ih]

theorem append_repair_prompt_non_user : ∀ (msgs : List Message) (m : Message),
    msgs.getLast? = some m → m.role ≠ "user" →
    append_repair_prompt msgs = msgs
  | [], _, hlast, _ => by simp at hlast
  | [a], m, hlast, hrole => by
    have ha : a = m := by simpa using hlast
    subst ha
    simp [append_repair_prompt, hrole]
  | a :: b :: rest, m, hlast, hrole => by
    have hlast2 : (b :: rest).getLast? = some m := by
      simpa [List.getLast?_cons_cons] using hlast
    simp [append_repair_prompt,
      append_repair_prompt_non_user (b :: rest) m hlast2 hrole]

theorem strip_no_thinking (bs : List ContentBlock) (t : String)
    (s : Option String) :
    ContentBlock.thinking t s ∉ strip_thinking_blocks bs := by
  intro hmem
  rcases List.mem_filterMap.mp hmem with ⟨b, _, hb⟩
  cases b with
  | text t0 => simp [strip_thinking_block] at hb
  | image s0 => simp [strip_thinking_block] at hb
  | toolUse i n => simp [strip_thinking_block] at hb
  | toolResult i c => simp [strip_thinking_block] at hb
  | thinking t0 s0 =>
    by_cases ht : t0.data.isEmpty = true <;> simp [strip_thinking_block, ht] at hb
  | redactedThinking d => simp [strip_thinking_block] at hb

theorem strip_no_redacted (bs : List ContentBlock) (d : String) :
    ContentBlock.redactedThinking d ∉ strip_thinking_blocks bs := by
  intro hmem
  rcases List.mem_filterMap.mp hmem with ⟨b, _, hb⟩
  cases b with
  | text t0 => simp [strip_thinking_block] at hb
  | image s0 => simp [strip_thinking_block] at hb
  | toolUse i n => simp [strip_thinking_block] at hb
  | toolResult i c => simp [strip_thinking_block] at hb
  | thinking t0 s0 =>
    by_cases ht : t0.data.isEmpty = true <;> simp [strip_thinking_block, ht] at hb
  | redactedThinking d0 => simp [strip_thinking_block] at hb

theorem strip_converts_thinking (bs : List ContentBlock) (t : String)
    (s : Option String) (hmem : ContentBlock.thinking t s ∈ bs)
    (ht : t.data ≠ []) :
    ContentBlock.text t ∈ strip_thinking_blocks bs := by
  have hne : t.data.isEmpty = false := by
    cases hd : t.data with
    | nil => exact absurd hd ht
    | cons a l => rfl
  exact List.mem_filterMap.mpr
    ⟨ContentBlock.thinking t s, hmem, by simp [strip_thinking_block, hne]⟩

/-- Claim C2 counterexample: with a request whose final message is an
assistant message (while an earlier user message exists), a triggering 400
leads to a rewrite that appends no recovery prompt at all — the claim's
"appends a recovery prompt to the last user message" fails.  Here the
whole rewritten request equals the original. -/
theorem C2_counterexample :
    thinking_recovery_triggers 400 false "Invalid `signature`" = true ∧
    (thinking_recovery_step reqC2).request = reqC2 ∧
    reqC2.messages.getLast? =
      some { role := "assistant", content := MessageContent.str "ok" } ∧
    (reqC2.messages.head?).map Message.role = some "user" := by
  refine ⟨by decide, by decide, by decide, by decide⟩

/-- Claim C2 (amended): when the upstream returns 400 with a
thinking/signature marker and `retried_without_thinking = false`, the
handler sets the flag (so the recovery runs at most once), appends the
recovery prompt to the final message only when that message's role is
`user` (and appends nothing otherwise), converts every non-empty Thinking
block to a plain Text block, drops every RedactedThinking block, re-closes
tool loops, canonicalizes the model name, and applies a fixed 200 ms delay
before continuing the loop. -/
theorem C2_amended_recovery (r : ClaudeRequest) (status_code : Nat)
    (e : String) (msgs : List Message) (m : Message)
    (bs : List ContentBlock) (t : String) (s : Option String) (d : String) :
    (thinking_recovery_triggers status_code true e = false) ∧
    (thinking_recovery_triggers status_code false e = true ↔
      (status_code = 400 ∧ is_thinking_signature_error e = true)) ∧
    ((thinking_recovery_step r).retried_without_thinking = true) ∧
    ((thinking_recovery_step r).strategy = RetryStrategy.fixedDelay 200) ∧
    ((thinking_recovery_step r).request.messages =
      close_tool_loop_for_thinking
        ((append_repair_prompt r.messages).map strip_thinking_message)) ∧
    ((thinking_recovery_step r).request.model =
      canonicalize_model_after_thinking_failure r.model) ∧
    (msgs.getLast? = some m → m.role = "user" →
      append_repair_prompt msgs =
        msgs.dropLast ++ [{ m with content := append_prompt_to_content m.content }]) ∧
    (msgs.getLast? = some m → m.role ≠ "user" →
      append_repair_prompt msgs = msgs) ∧
    (ContentBlock.thinking t s ∉ strip_thinking_blocks bs) ∧
    (ContentBlock.redactedThinking d ∉ strip_thinking_blocks bs) ∧
    (ContentBlock.thinking t s ∈ bs → t.data ≠ [] →
      ContentBlock.text t ∈ strip_thinking_blocks bs) := by
  refine ⟨?_, ?_, rfl, rfl, rfl, rfl, ?_, ?_, ?_, ?_, ?_⟩
  · simp [thinking_recovery_triggers]
  · simp [thinking_recovery_triggers]
  · exact fun h1 h2 => append_repair_prompt_user msgs m h1 h2
  · exact fun h1 h2 => append_repair_prompt_non_user msgs m h1 h2
  · exact strip_no_thinking bs t s
  · exact strip_no_redacted bs d
  · exact fun h1 h2 => strip_converts_thinking bs t s h1 h2

theorem C2_amended_recovery_witness :
    append_repair_prompt [{ role := "user", content := MessageContent.str "hi" }] =
      [{ role := "user"
       , content := MessageContent.str ("hi" ++ REPAIR_PROMPT) }] := by
  have h := C2_amended_recovery reqC2 400 "x"
    [{ role := "user", content := MessageContent.str "hi" }]
    { role := "user", content := MessageContent.str "hi" } [] "" none ""
  have happ := h.2.2.2.2.2.2.1 rfl rfl
  simpa [append_prompt_to_content] using happ

/-- Claim C9 counterexample: the no-lease 503 response carries neither
`X-Account-Email` nor `X-Context-Purified`, and the non-stream success
response carries no `X-Context-Purified` — so not every response of the
handler carries all three headers. -/
theorem C9_counterexample :
    has_header (exit_headers HandlerExit.noLease "user@example.com"
      "gemini-2.5-pro" false true) "X-Account-Email" = false ∧
    has_header (exit_headers HandlerExit.noLease "user@example.com"
      "gemini-2.5-pro" false true) "X-Context-Purified" = false ∧
    has_header (exit_headers HandlerExit.nonStreamSuccess "user@example.com"
      "gemini-2.5-pro" false true) "X-Context-Purified" = false := by
  decide

/-- Claim C9 (amended): the streaming-success and collected-JSON success
responses carry all of `X-Account-Email`, `X-Mapped-Model` and
`X-Context-Purified` with the latter's value in `{true,false}`; the
non-stream success response carries only the first two; the no-lease 503
carries only `X-Mapped-Model`; the prompt-too-long and non-retryable error
responses carry only `X-Account-Email`; the retry-exhaustion response
carries `X-Account-Email` and, when the value is header-safe,
`X-Mapped-Model`; the parse-error, L3-failure and stream-collection-error
responses carry none of the custom headers. -/
theorem C9_amended_headers (email mapped : String)
    (is_purified mapped_hv_ok : Bool) :
    (has_header (exit_headers HandlerExit.streamSuccess email mapped is_purified mapped_hv_ok) "X-Account-Email" = true ∧
     has_header (exit_headers HandlerExit.streamSuccess email mapped is_purified mapped_hv_ok) "X-Mapped-Model" = true ∧
     has_bool_header (exit_headers HandlerExit.streamSuccess email mapped is_purified mapped_hv_ok) "X-Context-Purified" = true) ∧
    (has_header (exit_headers HandlerExit.collectSuccess email mapped is_purified mapped_hv_ok) "X-Account-Email" = true ∧
     has_header (exit_headers HandlerExit.collectSuccess email mapped is_purified mapped_hv_ok) "X-Mapped-Model" = true ∧
     has_bool_header (exit_headers HandlerExit.collectSuccess email mapped is_purified mapped_hv_ok) "X-Context-Purified" = true) ∧
    (has_header (exit_headers HandlerExit.nonStreamSuccess email mapped is_purified mapped_hv_ok) "X-Account-Email" = true ∧
     has_header (exit_headers HandlerExit.nonStreamSuccess email mapped is_purified mapped_hv_ok) "X-Mapped-Model" = true ∧
     has_header (exit_headers HandlerExit.nonStreamSuccess email mapped is_purified mapped_hv_ok) "X-Context-Purified" = false) ∧
    (exit_headers HandlerExit.noLease email mapped is_purified mapped_hv_ok =
      [("X-Mapped-Model", mapped)]) ∧
    (has_header (exit_headers HandlerExit.noLease email mapped is_purified mapped_hv_ok) "X-Account-Email" = false) ∧
    (has_header (exit_headers HandlerExit.promptTooLong email mapped is_purified mapped_hv_ok) "X-Account-Email" = true ∧
     has_header (exit_headers HandlerExit.promptTooLong email mapped is_purified mapped_hv_ok) "X-Mapped-Model" = false) ∧
    (has_header (exit_headers HandlerExit.nonRetryableError email mapped is_purified mapped_hv_ok) "X-Account-Email" = true) ∧
    (has_header (exit_headers HandlerExit.exhaustedTried email mapped is_purified mapped_hv_ok) "X-Account-Email" = true ∧
     has_header (exit_headers HandlerExit.exhaustedTried email mapped is_purified mapped_hv_ok) "X-Mapped-Model" = mapped_hv_ok) ∧
    (exit_headers HandlerExit.parseError email mapped is_purified mapped_hv_ok = [] ∧
     exit_headers HandlerExit.l3Failure email mapped is_purified mapped_hv_ok = [] ∧
     exit_headers HandlerExit.collectError email mapped is_purified mapped_hv_ok = []) := by
  refine ⟨⟨?_, ?_, ?_⟩, ⟨?_, ?_, ?_⟩, ⟨?_, ?_, ?_⟩, rfl, ?_, ⟨?_, ?_⟩, ?_,
    ⟨?_, ?_⟩, rfl, rfl, rfl⟩ <;>
    cases is_purified <;> cases mapped_hv_ok <;>
    simp [exit_headers, has_header, has_bool_header]

/-! ## C10 helper lemma -/

theorem collect_results_gen (fmt : String) (rs : List SubResult)
    (imgs : List ImageEntry) (errs : List String) :
    rs.foldl
      (fun acc r =>
        match r with
        | SubResult.ok resp => (acc.1 ++ extract_images fmt resp, acc.2)
        | SubResult.err e => (acc.1, acc.2 ++ [e]))
      (imgs, errs) =
      (imgs ++ (rs.map (task_images fmt)).flatten,
       errs ++ rs.filterMap task_error) := by
  induction rs generalizing imgs errs with
  | nil => simp
  | cons r rest ih =>
    cases r with
    | ok resp => simp [ih, task_images, task_error]
    | err e => simp [ih, task_images, task_error]

theorem collect_results_eq (fmt : String) (results : List SubResult) :
    collect_results fmt results =
      ((results.map (task_images fmt)).flatten,
       results.filterMap task_error) := by
  simpa [collect_results] using collect_results_gen fmt results [] []

/-- Claim C10: all `n` image sub-requests reuse the single token lease
obtained before the fan-out; the handler returns 502 with the joined error
messages exactly when every sub-request fails to yield an image, and
otherwise returns 200 whose data array is exactly the images from the
successful subset. -/
theorem C10_image_fanout (lease : TokenLease) (n : Nat) (fmt : String)
    (results : List SubResult) (c : UpstreamImageCall) :
    ((image_gen_calls lease n).length = n) ∧
    (c ∈ image_gen_calls lease n → c.access_token = lease.access_token) ∧
    ((results.map (task_images fmt)).flatten = [] →
      images_generations_outcome lease fmt results =
        ImagesOutcome.failure 502
          (if results.filterMap task_error = [] then "No images generated"
           else String.intercalate "; " (results.filterMap task_error))) ∧
    ((results.map (task_images fmt)).flatten ≠ [] →
      images_generations_outcome lease fmt results =
        ImagesOutcome.success 200 ((results.map (task_images fmt)).flatten)
          lease.email) ∧
    (∀ status msg,
      images_generations_outcome lease fmt results =
        ImagesOutcome.failure status msg →
      (results.map (task_images fmt)).flatten = [] ∧ status = 502) := by
  refine ⟨?_, ?_, ?_, ?_, ?_⟩
  · simp [image_gen_calls]
  · intro hmem
    rw [List.eq_of_mem_replicate hmem]
  · intro hempty
    simp only [images_generations_outcome, collect_results_eq]
    simp [hempty, List.isEmpty_iff]
  · intro hne
    simp only [images_generations_outcome, collect_results_eq]
    simp [List.isEmpty_iff, hne]
  · intro status msg hout
    simp only [images_generations_outcome, collect_results_eq] at hout
    by_cases hempty : (results.map (task_images fmt)).flatten = []
    · refine ⟨hempty, ?_⟩
      simp [hempty, List.isEmpty_iff] at hout
      exact hout.1.symm
    · simp [List.isEmpty_iff, hempty] at hout

theorem C10_image_fanout_witness :
    images_generations_outcome
      { account_id := "acc1", email := "user@example.com"
      , access_token := "tok", project_id := "proj" } "b64_json"
      [ SubResult.err "boom"
      , SubResult.ok
          { parts := [GeminiImagePart.inlineData { data := "QUJD", mimeType := none }] } ] =
      ImagesOutcome.success 200 [ImageEntry.b64 "QUJD"] "user@example.com" := by
  have h := C10_image_fanout
    { account_id := "acc1", email := "user@example.com"
    , access_token := "tok", project_id := "proj" } 2 "b64_json"
    [ SubResult.err "boom"
    , SubResult.ok
        { parts := [GeminiImagePart.inlineData { data := "QUJD", mimeType := none }] } ]
    { method := "generateContent", access_token := "tok"
    , model := "gemini-3-pro-image", request_type := "image_gen" }
  have h4 := h.2.2.2.1 (by decide)
  have hflat :
      (([ SubResult.err "boom"
        , SubResult.ok
            { parts := [GeminiImagePart.inlineData { data := "QUJD", mimeType := none }] } ]).map
          (task_images "b64_json")).flatten = [ImageEntry.b64 "QUJD"] := by
    decide
  rw [hflat] at h4
  exact h4
